import Mathlib

/-!
Verification of the Board Lifecycle & Inventory Reconciliation Engine
(backend/api/pcba.py) against its specification.

Shallow embedding conventions:
* SQLite tables become Lean lists of records inside a `Store` structure;
  SQL `WHERE` clauses become `List.filter`, `ORDER BY timestamp DESC LIMIT 5`
  becomes a stable insertion sort + `List.take 5`.
* Timestamps are modelled as `Nat` seconds since the Unix epoch (UTC).
  The source stores ISO-8601 UTC strings produced by `now_utc_iso()`;
  for such strings lexicographic `TEXT` ordering coincides with the numeric
  order of the underlying instants, so this is faithful for ordering and
  for the America/Los_Angeles calendar-day computation, which is modelled
  with the post-2007 US daylight-saving rules.
* Python ints are `Int` where the source can go negative (`max(x - y, 0)`)
  and `Nat` for row counts.
* `HTTPException` becomes the inductive error type `Err`; `statusOf`
  reproduces the HTTP status code attached at each raise site.
* The sqlite connection is opened with `isolation_level=None` (autocommit),
  so every executed statement is durable immediately; operations that can
  fail *after* having executed statements therefore return the mutated
  store together with the error (`admin_edit_board`).
-/

namespace Pcba

/-- The three production stages, `aging → coating → completed` (module
constant `FLOW` in the source). -/
inductive Stage where
  | aging
  | coating
  | completed
deriving DecidableEq, Repr

/-- Index of a stage in `FLOW` (`FLOW_ORDER` in the source). -/
def Stage.idx : Stage → Nat
  | .aging => 0
  | .coating => 1
  | .completed => 2

def Stage.toStr : Stage → String
  | .aging => "aging"
  | .coating => "coating"
  | .completed => "completed"

/-- The two board kinds (`ALLOWED_HARD_MODELS = {"AM7", "AU8"}`). -/
inductive Mdl where
  | AM7
  | AU8
deriving DecidableEq, Repr

def Mdl.toStr : Mdl → String
  | .AM7 => "AM7"
  | .AU8 => "AU8"

/-- Source `next_stage_of` from the source: the immediate successor in `FLOW`,
`none` for the terminal stage. -/
def next_stage_of : Stage → Option Stage
  | .aging => some .coating
  | .coating => some .completed
  | .completed => none

/-- Python `str.upper` / SQL `UPPER`, written over the character list so
that it computes by kernel reduction. -/
def upperStr (s : String) : String := ⟨s.data.map Char.toUpper⟩

/-- SQL `TRIM`: strip leading and trailing spaces. -/
def sqlTrim (s : String) : String :=
  ⟨((s.data.dropWhile (fun c => decide (c = ' '))).reverse.dropWhile
      (fun c => decide (c = ' '))).reverse⟩

/-- Source `_normalize_serial_str`: uppercase and strip spaces and hyphens
(`.upper().replace(" ", "").replace("-", "")`). -/
def _normalize_serial_str (s : String) : String :=
  ⟨(s.data.map Char.toUpper).filter (fun c => decide (¬(c = ' ' ∨ c = '-')))⟩

/-- Source `infer_model`: ordered anchored-pattern match (`^10030035` ↦ AU8,
`^10030034` ↦ AM7) on the normalized serial, then substring fallback
(AM7 before AU8), else unresolved. -/
def infer_model (serial : String) : Option Mdl :=
  let s := _normalize_serial_str serial
  if "10030035".data <+: s.data then some .AU8
  else if "10030034".data <+: s.data then some .AM7
  else if "AM7".data <:+: s.data then some .AM7
  else if "AU8".data <:+: s.data then some .AU8
  else none

/-! ### Time: UTC seconds → America/Los_Angeles calendar day

The source converts ISO timestamps to an LA date key with
`parse_to_la_date_key` and obtains "today" with `today_la_key()`.
We model instants as UTC Unix seconds and calendar days as day indices.
-/

/-- Civil (year, month, day) from days since 1970-01-01
(standard Gregorian algorithm, valid for every `z : Nat`). -/
def civilFromDays (z : Nat) : Nat × Nat × Nat :=
  let z' := z + 719468
  let era := z' / 146097
  let doe := z' % 146097
  let yoe := (doe - doe / 1460 + doe / 36524 - doe / 146097) / 365
  let y := yoe + era * 400
  let doy := doe - (365 * yoe + yoe / 4 - yoe / 100)
  let mp := (5 * doy + 2) / 153
  let d := doy - (153 * mp + 2) / 5 + 1
  let m := if mp < 10 then mp + 3 else mp - 9
  (if m ≤ 2 then y + 1 else y, (m, d))

/-- Days since 1970-01-01 from a civil date (years ≥ 1970). -/
def daysFromCivil (y m d : Nat) : Nat :=
  let y' := if m ≤ 2 then y - 1 else y
  let era := y' / 400
  let yoe := y' - era * 400
  let mp := if 2 < m then m - 3 else m + 9
  let doy := (153 * mp + 2) / 5 + d - 1
  let doe := yoe * 365 + yoe / 4 - yoe / 100 + doy
  era * 146097 + doe - 719468

/-- Weekday of a day index, `0 = Sunday` (1970-01-01 was a Thursday). -/
def weekdayOfDay (z : Nat) : Nat := (z + 4) % 7

/-- Day-of-month of the first Sunday of the given month. -/
def firstSundayOfMonth (y m : Nat) : Nat :=
  1 + (7 - weekdayOfDay (daysFromCivil y m 1)) % 7

/-- US DST start for a year: second Sunday of March, 02:00 PST = 10:00 UTC. -/
def dstStartUtc (y : Nat) : Nat :=
  daysFromCivil y 3 (firstSundayOfMonth y 3 + 7) * 86400 + 10 * 3600

/-- US DST end for a year: first Sunday of November, 02:00 PDT = 09:00 UTC. -/
def dstEndUtc (y : Nat) : Nat :=
  daysFromCivil y 11 (firstSundayOfMonth y 11) * 86400 + 9 * 3600

/-- Whether America/Los_Angeles observes DST at UTC instant `t`
(post-2007 US rules, the era this system operates in). -/
def laIsDst (t : Nat) : Bool :=
  let y := (civilFromDays (t / 86400)).1
  decide (dstStartUtc y ≤ t ∧ t < dstEndUtc y)

/-- Offset (in seconds) to subtract from UTC to get LA local time. -/
def laUtcOffset (t : Nat) : Nat := if laIsDst t then 7 * 3600 else 8 * 3600

/-- Source `parse_to_la_date_key`: the America/Los_Angeles calendar day (as a day
index) containing UTC instant `t`. -/
def parse_to_la_date_key (t : Nat) : Nat := (t - laUtcOffset t) / 86400

/-- Source `today_la_key()`: the LA calendar day of the current instant. -/
def today_la_key (now : Nat) : Nat := parse_to_la_date_key now

/-! ### Data model: the three tables of the pcba store -/

/-- One row of the `boards` table. -/
structure Board where
  id : String
  serial_number : String
  batch_number : String
  model : Mdl
  stage : Stage
  start_time : Nat
  last_update : Nat
  operator : String
  slip_number : Option String
  ng_flag : Bool
  ng_reason : Option String
  ng_time : Option Nat
deriving DecidableEq, Repr

/-- One row of the append-only `board_history` table. -/
structure HistoryRow where
  board_id : String
  stage : Stage
  timestamp : Nat
  operator : String
  notes : String
deriving DecidableEq, Repr

/-- One row of the `slips` table. -/
structure Slip where
  slip_number : String
  target_pairs : Int
  created_at : Nat
  updated_at : Nat
deriving DecidableEq, Repr

/-- The persistent store: the three tables, each in insertion order. -/
structure Store where
  boards : List Board
  history : List HistoryRow
  slips : List Slip
deriving DecidableEq, Repr

def emptyStore : Store := ⟨[], [], []⟩

/-- Source `SELECT ... FROM boards WHERE serial_number=?` (serial is UNIQUE). -/
def findBoard (s : Store) (serial : String) : Option Board :=
  s.boards.find? (fun b => decide (b.serial_number = serial))

/-- Source `SELECT ... FROM slips WHERE slip_number=?`. -/
def findSlip (s : Store) (slip_number : String) : Option Slip :=
  s.slips.find? (fun r => decide (r.slip_number = slip_number))

/-- History rows of a board at a given stage
(`WHERE board_id=? AND stage=?`). -/
def historyAtStage (s : Store) (board_id : String) (stage : Stage) : List HistoryRow :=
  s.history.filter (fun h => decide (h.board_id = board_id ∧ h.stage = stage))

/-- Stable insertion into a list sorted by decreasing timestamp. -/
def insertTsDesc (h : HistoryRow) : List HistoryRow → List HistoryRow
  | [] => [h]
  | x :: xs => if x.timestamp < h.timestamp then h :: x :: xs else x :: insertTsDesc h xs

/-- Source `ORDER BY timestamp DESC` (stable insertion sort). -/
def sortTsDesc (l : List HistoryRow) : List HistoryRow :=
  l.foldr insertTsDesc []

/-- The error taxonomy: one constructor per `raise HTTPException` site in
the lifecycle and repository code. -/
inductive Err where
  | notFound (serial : String)
  | alreadyExists (serial : String)
  | mustStartAging
  | alreadyCompleted
  | invalidOrder (curr : Stage) (expected : Option Stage)
  | duplicateToday (stage : Stage)
  | unrecognizedModel
  | invalidModel
  | serialExists (serial : String)
  | serialRequired
  | forbidden
deriving DecidableEq, Repr

instance exceptDecEq {ε α : Type} [DecidableEq ε] [DecidableEq α] :
    DecidableEq (Except ε α) := fun x y =>
  match x, y with
  | .error a, .error b =>
      if h : a = b then .isTrue (by rw [h]) else
        .isFalse (by intro hh; cases hh; exact h rfl)
  | .error _, .ok _ => .isFalse (fun h => Except.noConfusion h)
  | .ok _, .error _ => .isFalse (fun h => Except.noConfusion h)
  | .ok a, .ok b =>
      if h : a = b then .isTrue (by rw [h]) else
        .isFalse (by intro hh; cases hh; exact h rfl)

/-- HTTP status code attached to each raise site in the source. -/
def Err.statusOf : Err → Nat
  | .notFound _ => 404
  | .duplicateToday _ => 409
  | .forbidden => 403
  | _ => 400

/-- Python string truthiness on an optional string: `None` and `""` are
falsy. Used wherever the source writes `if x:` / `x or y` on strings. -/
def strTruthy : Option String → Option String
  | none => none
  | some s => if s = "" then none else some s

/-! ### Request payloads (pydantic models, `models/pcba_models.py`).
`stage` fields are pattern-validated to the three stage literals, hence
typed `Stage`; `model` is a free-form optional string validated in the
handlers. -/

structure BoardCreate where
  serialNumber : String
  stage : Stage
  batchNumber : Option String := none
  model : Option String := some "AUTO-DETECT"
  slipNumber : Option String := none
  targetPairs : Option Int := none
  slipPairs : Option Int := none
deriving Repr

structure BoardAdminUpdate where
  newSerialNumber : Option String := none
  batchNumber : Option String := none
  model : Option String := none
  stage : Option Stage := none
  startTime : Option Nat := none
  lastUpdate : Option Nat := none
  operator : Option String := none
  note : Option String := none
  slipNumber : Option String := none
  targetPairs : Option Int := none
  slipPairs : Option Int := none
deriving Repr

structure NGPatch where
  ng : Bool
  reason : Option String := none
deriving Repr

structure User where
  username : String
  role : String
deriving Repr

/-- Source `_effective_target_pairs_from_create`. -/
def _effective_target_pairs_from_create (data : BoardCreate) : Option Int :=
  match data.targetPairs with
  | some t => some t
  | none => data.slipPairs

/-- Source `_effective_target_pairs_from_admin`. -/
def _effective_target_pairs_from_admin (patch : BoardAdminUpdate) : Option Int :=
  match patch.targetPairs with
  | some t => some t
  | none => patch.slipPairs

/-! ### Repository operations -/

/-- Source `_ensure_slip`: no-op on a falsy slip number; update `target_pairs`
when a different explicit target is supplied for an existing slip; insert
the slip otherwise (target defaulting through `int(target_pairs or 0)`). -/
def _ensure_slip (s : Store) (slip_number : String) (target_pairs : Option Int)
    (now : Nat) : Store :=
  if slip_number = "" then s
  else
    match findSlip s slip_number with
    | some row =>
        match target_pairs with
        | some t =>
            if t ≠ row.target_pairs then
              { s with slips := s.slips.map (fun r =>
    if r.slip_number = slip_number then { r with target_pairs := t, updated_at := now } else r) }
            else s
        | none => s
    | none =>
        let t : Int := match target_pairs with
          | some t => t
          | none => 0
        { s with slips := s.slips ++ [⟨slip_number, t, now, now⟩] }

/-- Source `_validate_create_stage`: creation must start at `aging`
(400 "Must start with Aging"). -/
def _validate_create_stage (stage : Stage) : Except Err Unit :=
  if stage ≠ .aging then .error .mustStartAging else .ok ()

/-- Source `_validate_update_sequential`: unknown serial passes (caller handles
404); a completed board rejects; otherwise the requested stage must equal
the immediate successor of the current stage, the error reporting both the
current and the expected stage. -/
def _validate_update_sequential (s : Store) (serial : String) (new_stage : Stage) :
    Except Err Unit :=
  match findBoard s serial with
  | none => .ok ()
  | some b =>
      if b.stage = .completed then .error .alreadyCompleted
      else if some new_stage ≠ next_stage_of b.stage then
        .error (.invalidOrder b.stage (next_stage_of b.stage))
      else .ok ()

/-- Source `_validate_no_duplicate_today`: among the **5 most recent** history
rows of this board at this stage (`ORDER BY timestamp DESC LIMIT 5`),
reject with 409 if any falls on today's LA calendar day. -/
def _validate_no_duplicate_today (s : Store) (board_id : String) (stage : Stage)
    (now : Nat) : Except Err Unit :=
  let recent := (sortTsDesc (historyAtStage s board_id stage)).take 5
  if recent.any (fun r => decide (parse_to_la_date_key r.timestamp = today_la_key now)) then
    .error (.duplicateToday stage)
  else .ok ()

/-- Source `_update_board_stage_internal`: fetch, validate order, validate
same-day duplicate, then (supposed no-op when the stage is unchanged,
else) persist the new stage and append a history row. -/
def _update_board_stage_internal (s : Store) (serial_number : String) (stage : Stage)
    (username : String) (now : Nat) : Except Err (Store × Board) :=
  match findBoard s serial_number with
  | none => .error (.notFound serial_number)
  | some b =>
      match _validate_update_sequential s serial_number stage with
      | .error e => .error e
      | .ok _ =>
          match _validate_no_duplicate_today s b.id stage now with
          | .error e => .error e
          | .ok _ =>
              if b.stage = stage then .ok (s, b)
              else
                let b' := { b with stage := stage, last_update := now, operator := username }
                let s' : Store :=
                  { s with
                    boards := s.boards.map (fun x =>
                      if x.serial_number = serial_number then b' else x),
                    history := s.history ++
                      [⟨b.id, stage, now, username,
                        "stage " ++ b.stage.toStr ++ " -> " ++ stage.toStr⟩] }
                .ok (s', b')

/-- Source `_create_board_internal`: duplicate-serial check, initial-stage check,
model resolution (auto-detect from the serial, or explicit AM7/AU8),
implicit slip upsert, then insertion of the board and its first history
row. The generated id and batch use the slip (when truthy) and the LA day. -/
def _create_board_internal (s : Store) (data : BoardCreate) (username : String)
    (now : Nat) : Except Err (Store × Board) :=
  if (findBoard s data.serialNumber).isSome then
    .error (.alreadyExists data.serialNumber)
  else
    match _validate_create_stage data.stage with
    | .error e => .error e
    | .ok _ =>
        let req := upperStr (match data.model with
          | some m => m
          | none => "AUTO-DETECT")
        let mres : Except Err Mdl :=
          if req = "AUTO-DETECT" then
            match infer_model data.serialNumber with
            | some m => .ok m
            | none => .error .unrecognizedModel
          else if req = "AM7" then .ok .AM7
          else if req = "AU8" then .ok .AU8
          else .error .invalidModel
        match mres with
        | .error e => .error e
        | .ok model =>
            let s1 := match strTruthy data.slipNumber with
              | some sn => _ensure_slip s sn (_effective_target_pairs_from_create data) now
              | none => s
            let la_day := toString (today_la_key now)
            let batch := match strTruthy data.batchNumber with
              | some bn => bn
              | none =>
                  match strTruthy data.slipNumber with
                  | some sn => sn ++ "-" ++ la_day
                  | none => "BATCH-" ++ la_day
            let ts := now * 1000
            let board_id := match strTruthy data.slipNumber with
              | some sn => sn ++ "-" ++ la_day ++ "-" ++ toString ts
              | none => "PCB-" ++ toString ts
            let b : Board :=
              { id := board_id, serial_number := data.serialNumber,
                batch_number := batch, model := model, stage := data.stage,
                start_time := now, last_update := now, operator := username,
                slip_number := data.slipNumber, ng_flag := false,
                ng_reason := none, ng_time := none }
            let s2 : Store :=
              { s1 with
                boards := s1.boards ++ [b],
                history := s1.history ++
                  [⟨board_id, data.stage, now, username,
                    "create (model=" ++ model.toStr ++ ")"⟩] }
            .ok (s2, b)

/-- Source `scan_upsert` (`POST /scan`): ensure the slip, then advance an
existing board (after attaching a new slip number, with a history row at
the *current* stage) or create an unknown one. -/
def scan_upsert (s : Store) (payload : BoardCreate) (user : User) (now : Nat) :
    Except Err (Store × Board) :=
  if payload.serialNumber = "" then .error .serialRequired
  else
    let s0 := match strTruthy payload.slipNumber with
      | some sn => _ensure_slip s sn (_effective_target_pairs_from_create payload) now
      | none => s
    match findBoard s0 payload.serialNumber with
    | some existing =>
        let s1 := match strTruthy payload.slipNumber with
          | some sn =>
              if existing.slip_number ≠ payload.slipNumber then
                { s0 with
                  boards := s0.boards.map (fun x =>
                    if x.serial_number = payload.serialNumber then
                      { x with slip_number := payload.slipNumber,
                               last_update := now, operator := user.username }
                    else x),
                  history := s0.history ++
                    [⟨existing.id, existing.stage, now, user.username,
                      "attach slip " ++ sn⟩] }
              else s0
          | none => s0
        _update_board_stage_internal s1 payload.serialNumber payload.stage user.username now
    | none => _create_board_internal s0 payload user.username now

/-- Source `mark_ng` (`PATCH /boards/{serial}/ng`): set or clear the NG flag,
reason and time, stamping `last_update` and `operator`. -/
def mark_ng (s : Store) (serial_number : String) (payload : NGPatch)
    (username : String) (now : Nat) : Except Err (Store × Board) :=
  match findBoard s serial_number with
  | none => .error (.notFound serial_number)
  | some b =>
      let b' :=
        if payload.ng then
          { b with ng_flag := true,
                   ng_reason := some (match payload.reason with
                     | some r => r
                     | none => ""),
                   ng_time := some now, last_update := now, operator := username }
        else
          { b with ng_flag := false, ng_reason := none, ng_time := none,
                   last_update := now, operator := username }
      let s' : Store :=
        { s with boards := s.boards.map (fun x =>
            if x.serial_number = serial_number then b' else x) }
      .ok (s', b')

/-- Source `admin_edit_board` (`PATCH /boards/{serial}/admin`). The connection is
in autocommit mode (`isolation_level=None` in `_open_conn_raw`), so every
executed statement is durable at once; the function therefore returns the
store as mutated up to the point of failure. In particular the field
`UPDATE` and the history insert run *before* the `newSerialNumber`
collision check. -/
def admin_edit_board (s : Store) (serial_number : String) (patch : BoardAdminUpdate)
    (user : User) (now : Nat) : (Except Err Board) × Store :=
  if user.role ≠ "admin" then (.error .forbidden, s)
  else
    match findBoard s serial_number with
    | none => (.error (.notFound serial_number), s)
    | some b =>
        let mres : Except Err (Option Mdl) :=
          match patch.model with
          | none => .ok none
          | some m =>
              let mdl := upperStr m
              let mdl2 := if mdl = "AUTO-DETECT" then
                  match infer_model b.serial_number with
                  | some im => im.toStr
                  | none => mdl
                else mdl
              if mdl2 = "AM7" then .ok (some .AM7)
              else if mdl2 = "AU8" then .ok (some .AU8)
              else .error .invalidModel
        match mres with
        | .error e => (.error e, s)
        | .ok mopt =>
            let b1 : Board :=
              { b with
                batch_number := (patch.batchNumber).getD b.batch_number,
                model := mopt.getD b.model,
                stage := (patch.stage).getD b.stage,
                slip_number := match patch.slipNumber with
                  | some v => some v
                  | none => b.slip_number,
                start_time := (patch.startTime).getD b.start_time,
                last_update := (patch.lastUpdate).getD now,
                operator := (strTruthy patch.operator).getD user.username }
            let new_stage_for_history : Option Stage :=
              match patch.stage with
              | some st => if st ≠ b.stage then some st else none
              | none => none
            let s1 : Store :=
              { s with boards := s.boards.map (fun x =>
                  if x.serial_number = serial_number then b1 else x) }
            let s2 : Store :=
              match new_stage_for_history with
              | some st =>
                  { s1 with history := s1.history ++
                      [⟨b.id, st, now, user.username,
                        (strTruthy patch.note).getD "admin edit"⟩] }
              | none => s1
            let finish : Store → String → (Except Err Board) × Store := fun sf sn' =>
              let s4 := match strTruthy patch.slipNumber with
                | some sn => _ensure_slip sf sn (_effective_target_pairs_from_admin patch) now
                | none => sf
              match findBoard s4 sn' with
              | some bb => (.ok bb, s4)
              | none => (.error (.notFound sn'), s4)
            match strTruthy patch.newSerialNumber with
            | some ns =>
                if ns ≠ b.serial_number then
                  if (findBoard s2 ns).isSome then (.error (.serialExists ns), s2)
                  else
                    let s3 : Store :=
                      { s2 with boards := s2.boards.map (fun x =>
                          if x.id = b.id then { x with serial_number := ns } else x) }
                    finish s3 ns
                else finish s2 b.serial_number
            | none => finish s2 b.serial_number

/-! ### Reconciliation Engine (`_get_statistics` and its helpers) -/

/-- One row of the external `assembly.db` `scans` table: the two columns
the core ever reads. -/
structure ScanRow where
  am7 : Option String
  au8 : Option String
deriving Repr

def ScanRow.col : Mdl → ScanRow → Option String
  | .AM7, r => r.am7
  | .AU8, r => r.au8

/-- The external consumption ledger; `none` models an absent or unreadable
`assembly.db` (any read failure is downgraded to zero consumption). -/
abbrev Ledger := Option (List ScanRow)

/-- Boards with `stage='completed' AND (ng_flag IS NULL OR ng_flag=0)` of a
given model. -/
def completedGoodBoards (s : Store) (m : Mdl) : List Board :=
  s.boards.filter (fun b =>
    decide (b.stage = .completed ∧ b.ng_flag = false ∧ b.model = m))

/-- Source `_fetch_completed_serials_by_model`: normalized serials of the
completed, non-NG boards of one model. -/
def _fetch_completed_serials_by_model (s : Store) (m : Mdl) : List String :=
  (completedGoodBoards s m).map (fun b => _normalize_serial_str b.serial_number)

/-- The inner `_count_used` of `_assembly_usage_counts_limited_to_pcba`:
`COUNT(DISTINCT normalized-column)` over ledger rows whose column is
non-NULL, not the `'N/A'` placeholder, and whose normalized value appears
in the candidate set (materialized as a deduplicating temp table).
Empty candidate set or absent ledger counts zero. -/
def _count_used (ledger : Ledger) (column : Mdl) (values : List String) : Nat :=
  if values = [] then 0
  else
    match ledger with
    | none => 0
    | some rows =>
        let tmp := values.dedup
        let norms := ((rows.filterMap (ScanRow.col column)).filter
            (fun v => decide (¬ (sqlTrim (upperStr v) = "N/A")))).map _normalize_serial_str
        ((norms.filter (fun n => decide (n ∈ tmp))).dedup).length

/-- Source `_assembly_usage_counts_limited_to_pcba`: per-model count of distinct
normalized completed-good serials observed as used in the ledger. -/
def _assembly_usage_counts_limited_to_pcba (s : Store) (ledger : Ledger) (m : Mdl) : Nat :=
  _count_used ledger m (_fetch_completed_serials_by_model s m)

/-- Count of boards at a stage (`SUM(CASE WHEN stage=... )`). -/
def countStage (s : Store) (st : Stage) : Nat :=
  (s.boards.filter (fun b => decide (b.stage = st))).length

/-- Source `completed_by_model` in `_get_statistics`: completed and not NG,
grouped by model. -/
def completedByModel (s : Store) (m : Mdl) : Nat :=
  (completedGoodBoards s m).length

/-- The integer content of the `StageStats` response (the float
`efficiency` field is out of the embedding's scope and not claimed). -/
structure StageStats where
  total : Nat
  aging : Nat
  coating : Nat
  completed : Nat
  completedAM7 : Nat
  completedAU8 : Nat
  consumedAM7 : Nat
  consumedAU8 : Nat
  consumedTotal : Nat
  availableAM7 : Int
  availableAU8 : Int
  availableTotal : Int
  pairsDone : Int
deriving Repr

/-- Source `_get_statistics`: stage totals, completed-good per model, ledger
consumption, clamped availability and `pairsDone = min(avail, avail)`. -/
def _get_statistics (s : Store) (ledger : Ledger) : StageStats :=
  let am7_used := _assembly_usage_counts_limited_to_pcba s ledger .AM7
  let au8_used := _assembly_usage_counts_limited_to_pcba s ledger .AU8
  let cAM7 := completedByModel s .AM7
  let cAU8 := completedByModel s .AU8
  let avail_am7 : Int := max ((cAM7 : Int) - (am7_used : Int)) 0
  let avail_au8 : Int := max ((cAU8 : Int) - (au8_used : Int)) 0
  { total := s.boards.length,
    aging := countStage s .aging,
    coating := countStage s .coating,
    completed := countStage s .completed,
    completedAM7 := cAM7, completedAU8 := cAU8,
    consumedAM7 := am7_used, consumedAU8 := au8_used,
    consumedTotal := am7_used + au8_used,
    availableAM7 := avail_am7, availableAU8 := avail_au8,
    availableTotal := avail_am7 + avail_au8,
    pairsDone := min avail_am7 avail_au8 }

def StageStats.availableOf (st : StageStats) : Mdl → Int
  | .AM7 => st.availableAM7
  | .AU8 => st.availableAU8

def StageStats.consumedOf (st : StageStats) : Mdl → Nat
  | .AM7 => st.consumedAM7
  | .AU8 => st.consumedAU8

/-- Source `GET /pcba/inventory` (`get_inventory_summary`). -/
structure InventorySummary where
  availableAM7 : Int
  availableAU8 : Int
  availableTotal : Int
  usedAM7 : Nat
  usedAU8 : Nat
  usedTotal : Nat
  completedAM7 : Nat
  completedAU8 : Nat
  pairsAvailable : Int
deriving Repr

def get_inventory_summary (s : Store) (ledger : Ledger) : InventorySummary :=
  let stats := _get_statistics s ledger
  { availableAM7 := stats.availableAM7,
    availableAU8 := stats.availableAU8,
    availableTotal := stats.availableTotal,
    usedAM7 := stats.consumedAM7,
    usedAU8 := stats.consumedAU8,
    usedTotal := stats.consumedTotal,
    completedAM7 := stats.completedAM7,
    completedAU8 := stats.completedAU8,
    pairsAvailable := min stats.availableAM7 stats.availableAU8 }

/-! ### Slip Accounting (`_slip_status`) -/

/-- Boards of a slip at a stage with NG excluded, per model
(the grouped count inside `_pairs_for_stage`). -/
def slipStageModelCount (s : Store) (slip : String) (st : Stage) (m : Mdl) : Nat :=
  (s.boards.filter (fun b =>
    decide (b.slip_number = some slip ∧ b.stage = st ∧ b.ng_flag = false ∧ b.model = m))).length

/-- Source `_pairs_for_stage`: the pair count at a stage, `min` over the two
models, NG excluded, restricted to the slip. -/
def _pairs_for_stage (s : Store) (slip : String) (st : Stage) : Nat :=
  min (slipStageModelCount s slip st .AM7) (slipStageModelCount s slip st .AU8)

/-- Raw board count of a slip at a stage (NG included). -/
def slipStageCount (s : Store) (slip : String) (st : Stage) : Nat :=
  (s.boards.filter (fun b => decide (b.slip_number = some slip ∧ b.stage = st))).length

structure SlipStatus where
  slipNumber : String
  targetPairs : Int
  aging : Nat
  coating : Nat
  completed : Nat
  completedAM7 : Nat
  completedAU8 : Nat
  completedPairs : Nat
  remainingPairs : Int
  agingPairs : Nat
  coatingPairs : Nat
  wipPairs : Nat
  remainingPairsAfterWIP : Int
deriving Repr

/-- Source `_slip_status`: target lookup (0 when the slip row is absent), raw
per-stage counts, NG-excluded pair counts per stage, and the remaining /
after-WIP projections. -/
def _slip_status (s : Store) (slip_number : String) : SlipStatus :=
  let target : Int := match findSlip s slip_number with
    | some r => r.target_pairs
    | none => 0
  let aging_pairs := _pairs_for_stage s slip_number .aging
  let coating_pairs := _pairs_for_stage s slip_number .coating
  let completed_pairs := _pairs_for_stage s slip_number .completed
  let wip_pairs := aging_pairs + coating_pairs
  { slipNumber := slip_number,
    targetPairs := target,
    aging := slipStageCount s slip_number .aging,
    coating := slipStageCount s slip_number .coating,
    completed := slipStageCount s slip_number .completed,
    completedAM7 := slipStageModelCount s slip_number .completed .AM7,
    completedAU8 := slipStageModelCount s slip_number .completed .AU8,
    completedPairs := completed_pairs,
    remainingPairs := max (target - (completed_pairs : Int)) 0,
    agingPairs := aging_pairs,
    coatingPairs := coating_pairs,
    wipPairs := wip_pairs,
    remainingPairsAfterWIP :=
      max (target - min target ((completed_pairs : Int) + (wip_pairs : Int))) 0 }

/-! ### Persistent Store Guard (`open_conn`, `_backup_and_recreate`) -/

/-- The on-disk main database file, abstracted: whether `sqlite3.connect`
raises, whether executing on the handle raises, whether
`PRAGMA integrity_check` reports `ok`, and the logical content. -/
structure DiskFile where
  openRaises : Bool
  executeRaises : Bool
  integrityOk : Bool
  content : Store
deriving Repr

/-- A freshly created empty-schema database file. -/
def emptyDiskFile : DiskFile :=
  { openRaises := false, executeRaises := false, integrityOk := true,
    content := emptyStore }

/-- The slice of the filesystem the guard touches: the main db file, its
`-wal`/`-shm` side files, and the quarantine backups already made
(quarantine files are never deleted by the code). -/
structure FileSys where
  main : Option DiskFile
  walExists : Bool
  shmExists : Bool
  quarantine : List (String × Option DiskFile)
deriving Repr

/-- The quarantine path built in `_backup_and_recreate`:
`pcba.db.corrupt-<ts>[-<tag>]<ext>`. -/
def quarantinePath (ts tag ext : String) : String :=
  "pcba.db" ++ ".corrupt-" ++ ts ++ (if tag = "" then "" else "-" ++ tag) ++ ext

/-- Source `StoreCorrupt`: the failure `open_conn` propagates when auto-repair is
disabled (a `sqlite3.DatabaseError` in the source). -/
inductive StoreCorrupt where
  | corrupt
deriving DecidableEq, Repr

/-- Source `_backup_and_recreate`: rename the main file and each existing side
file to the timestamped quarantine path, recreate an empty schema, and
open it. Returns the connection's logical content with the new state. -/
def _backup_and_recreate (fs : FileSys) (ts tag : String) : Store × FileSys :=
  let q0 : List (String × Option DiskFile) :=
    match fs.main with
    | some f => [(quarantinePath ts tag "", some f)]
    | none => []
  let q1 : List (String × Option DiskFile) :=
    if fs.walExists then [(quarantinePath ts tag "-wal", none)] else []
  let q2 : List (String × Option DiskFile) :=
    if fs.shmExists then [(quarantinePath ts tag "-shm", none)] else []
  (emptyStore,
   { main := some emptyDiskFile, walExists := false, shmExists := false,
     quarantine := fs.quarantine ++ q0 ++ q1 ++ q2 })

/-- Source `open_conn`: open, probe integrity, and either return the connection,
auto-repair via `_backup_and_recreate` (tags `"open"`, `"execute"`,
`"integrity_check"` matching the three failure sites), or propagate
`StoreCorrupt` when auto-repair is disabled. A missing file is recreated
empty by the driver itself. -/
def open_conn (fs : FileSys) (autoRepair : Bool) (ts : String) :
    Except StoreCorrupt Store × FileSys :=
  match fs.main with
  | none => (.ok emptyStore, { fs with main := some emptyDiskFile })
  | some f =>
      if f.openRaises then
        if autoRepair then
          let (st, fs') := _backup_and_recreate fs ts "open"
          (.ok st, fs')
        else (.error .corrupt, fs)
      else if f.executeRaises then
        if autoRepair then
          let (st, fs') := _backup_and_recreate fs ts "execute"
          (.ok st, fs')
        else (.error .corrupt, fs)
      else if !f.integrityOk then
        if autoRepair then
          let (st, fs') := _backup_and_recreate fs ts "integrity_check"
          (.ok st, fs')
        else (.error .corrupt, fs)
      else (.ok f.content, fs)

/-- Status of the result of a lifecycle call: the HTTP status of the error,
or `none` on success. -/
def errStatus {α : Type} : Except Err α → Option Nat
  | .error e => some e.statusOf
  | .ok _ => none

/-- The repair tag `open_conn` passes to `_backup_and_recreate`, by failure
site. -/
def repairTag (f : DiskFile) : String :=
  if f.openRaises then "open"
  else if f.executeRaises then "execute"
  else "integrity_check"

/-! ### Concrete fixtures used by witnesses and counterexamples -/

def fixtureBoard (id serial : String) (m : Mdl) (st : Stage) (op : String) : Board :=
  { id := id, serial_number := serial, batch_number := "B1", model := m, stage := st,
    start_time := 0, last_update := 0, operator := op, slip_number := none,
    ng_flag := false, ng_reason := none, ng_time := none }

def c1B : Board := fixtureBoard "B1" "SN1" .AM7 .aging "alice"

def c1S : Store := ⟨[c1B], [], []⟩

def c2S : Store := ⟨[c1B], [⟨"B1", .aging, 1699999000, "alice", "create (model=AM7)"⟩], []⟩

def c2wS : Store := ⟨[c1B], [⟨"B1", .coating, 1699999000, "alice", "x"⟩], []⟩

def c4S1 : Store :=
  ⟨[fixtureBoard "1" "A1" .AM7 .completed "op",
    fixtureBoard "2" "A2" .AM7 .completed "op",
    fixtureBoard "3" "U1" .AU8 .completed "op"], [], []⟩

def c4S2 : Store :=
  ⟨[fixtureBoard "1" "A1" .AM7 .completed "op",
    fixtureBoard "2" "A2" .AM7 .completed "op",
    fixtureBoard "4" "A3" .AM7 .completed "op",
    fixtureBoard "3" "U1" .AU8 .completed "op"], [], []⟩

def c5S : Store :=
  ⟨[fixtureBoard "B1" "SN1" .AM7 .aging "alice",
    fixtureBoard "B2" "SN2" .AU8 .aging "carol"], [], []⟩

def c5Patch : BoardAdminUpdate :=
  { newSerialNumber := some "SN2", batchNumber := some "B2x" }

def c6B : Board := fixtureBoard "B6" "SN6" .AM7 .aging "alice"

def c6S : Store := ⟨[c6B], [], []⟩

def c6B' : Board := { c6B with stage := .coating, last_update := 5, operator := "op" }

def c6S' : Store :=
  ⟨[c6B'], [⟨"B6", .coating, 5, "op", "stage aging -> coating"⟩], []⟩

def c6P4 : BoardCreate :=
  { serialNumber := "NEW1", stage := .aging, model := some "AM7" }

def c6w4B : Board :=
  { id := "PCB-5000", serial_number := "NEW1", batch_number := "BATCH-0",
    model := .AM7, stage := .aging, start_time := 5, last_update := 5,
    operator := "u", slip_number := none, ng_flag := false,
    ng_reason := none, ng_time := none }

def c6w4S : Store := ⟨[c6w4B], [⟨"PCB-5000", .aging, 5, "u", "create (model=AM7)"⟩], []⟩

def c9S : Store := ⟨[fixtureBoard "B1" "SN1" .AM7 .completed "alice"], [], []⟩

def c9wB : Board := fixtureBoard "B9" "SN9" .AU8 .coating "alice"

def c9wS : Store := ⟨[c9wB], [], []⟩

def c9wB' : Board :=
  { c9wB with ng_flag := true, ng_reason := some "r", ng_time := some 5,
              last_update := 5, operator := "bob" }

def c9wS' : Store := ⟨[c9wB'], [], []⟩

def c10S : Store :=
  ⟨[c1B],
   [⟨"B1", .coating, 1699999000, "alice", "h0"⟩,
    ⟨"B1", .coating, 1700050000, "alice", "h1"⟩,
    ⟨"B1", .coating, 1700051000, "alice", "h2"⟩,
    ⟨"B1", .coating, 1700052000, "alice", "h3"⟩,
    ⟨"B1", .coating, 1700053000, "alice", "h4"⟩,
    ⟨"B1", .coating, 1700054000, "alice", "h5"⟩], []⟩

def c8F : DiskFile :=
  { openRaises := false, executeRaises := false, integrityOk := false,
    content := ⟨[c1B], [], []⟩ }

def c8FS : FileSys := ⟨some c8F, true, false, []⟩

/-! ### Helper lemmas -/

theorem next_stage_ne (st : Stage) : next_stage_of st ≠ some st := by
  cases st <;> decide

theorem next_stage_idx {a b : Stage} (h : next_stage_of a = some b) :
    b.idx = a.idx + 1 := by
  cases a <;> cases b <;> simp_all [next_stage_of, Stage.idx]

theorem ensure_slip_boards (s : Store) (sn : String) (t : Option Int) (now : Nat) :
    (_ensure_slip s sn t now).boards = s.boards := by
  unfold _ensure_slip
  repeat' split <;> try rfl

theorem findBoard_boards_eq {s₁ s₂ : Store} (h : s₁.boards = s₂.boards) (serial : String) :
    findBoard s₁ serial = findBoard s₂ serial := by
  unfold findBoard; rw [h]

theorem findBoard_serial {s : Store} {serial : String} {b : Board}
    (h : findBoard s serial = some b) : b.serial_number = serial := by
  have := List.find?_some h
  simpa using this

/-- Source `_validate_update_sequential` on an existing board succeeds exactly
when the board is not completed and the requested stage is its immediate
successor. -/
theorem seq_ok_iff {s : Store} {serial : String} {st : Stage} {b : Board}
    (hb : findBoard s serial = some b) :
    _validate_update_sequential s serial st = .ok () ↔
      (b.stage ≠ .completed ∧ some st = next_stage_of b.stage) := by
  unfold _validate_update_sequential
  rw [hb]
  by_cases h1 : b.stage = .completed
  · simp [h1]
  · by_cases h2 : some st = next_stage_of b.stage
    · simp [h1, h2]
    · simp [h1, h2]

theorem seq_err {s : Store} {serial : String} {st : Stage} {b : Board}
    (hb : findBoard s serial = some b) (h1 : b.stage ≠ .completed)
    (h2 : some st ≠ next_stage_of b.stage) :
    _validate_update_sequential s serial st =
      .error (.invalidOrder b.stage (next_stage_of b.stage)) := by
  unfold _validate_update_sequential
  rw [hb]
  simp [h1, h2]

/-- Source `_validate_no_duplicate_today` succeeds exactly when none of the 5 most
recent history rows at the stage falls on today's LA day. -/
theorem dup_ok_iff (s : Store) (board_id : String) (st : Stage) (now : Nat) :
    _validate_no_duplicate_today s board_id st now = .ok () ↔
      ∀ r ∈ (sortTsDesc (historyAtStage s board_id st)).take 5,
        parse_to_la_date_key r.timestamp ≠ today_la_key now := by
  unfold _validate_no_duplicate_today
  by_cases h : ((sortTsDesc (historyAtStage s board_id st)).take 5).any
      (fun r => decide (parse_to_la_date_key r.timestamp = today_la_key now)) = true
  · rw [if_pos h]
    rw [List.any_eq_true] at h
    obtain ⟨r, hr, hp⟩ := h
    rw [decide_eq_true_eq] at hp
    constructor
    · intro hcontra; cases hcontra
    · intro hall; exact absurd hp (hall r hr)
  · rw [if_neg h]
    rw [Bool.not_eq_true, List.any_eq_false] at h
    constructor
    · intro _ r hr
      have := h r hr
      simpa using this
    · intro _; rfl

theorem dup_err {s : Store} {board_id : String} {st : Stage} {now : Nat}
    (h : ∃ r ∈ (sortTsDesc (historyAtStage s board_id st)).take 5,
        parse_to_la_date_key r.timestamp = today_la_key now) :
    _validate_no_duplicate_today s board_id st now = .error (.duplicateToday st) := by
  unfold _validate_no_duplicate_today
  obtain ⟨r, hr, hp⟩ := h
  rw [if_pos]
  rw [List.any_eq_true]
  exact ⟨r, hr, by simpa using hp⟩

/-! ### Claim theorems -/

/-- C3: for every store state and ledger state, the statistics snapshot
satisfies `available[kind] = max(completedGood[kind] − consumedDistinct[kind], 0)`
for each kind, where `completedGood` counts boards with stage `completed`
and the NG flag unset and `consumedDistinct` counts distinct normalized
serials from that set found in the ledger; `available` is never negative,
even when the ledger reports more consumption than completed production. -/
theorem c3_available_is_clamped_difference (s : Store) (ledger : Ledger) (m : Mdl) :
    (_get_statistics s ledger).availableOf m =
      max (((completedGoodBoards s m).length : Int) -
           ((_assembly_usage_counts_limited_to_pcba s ledger m : Nat) : Int)) 0 ∧
    0 ≤ (_get_statistics s ledger).availableOf m := by
  cases m <;>
    exact ⟨rfl, le_max_right _ _⟩

/-- C4: `pairsAvailable = min(available[AM7], available[AU8])` both in the
statistics snapshot (`pairsDone`) and in the inventory summary
(`pairsAvailable`); and increasing `available[AM7]` alone, with
`available[AU8]` unchanged and smaller, never changes `pairsAvailable`. -/
theorem c4_pairs_available_min :
    (∀ (s : Store) (ledger : Ledger),
      (_get_statistics s ledger).pairsDone =
        min (_get_statistics s ledger).availableAM7 (_get_statistics s ledger).availableAU8 ∧
      (get_inventory_summary s ledger).pairsAvailable =
        min (_get_statistics s ledger).availableAM7 (_get_statistics s ledger).availableAU8) ∧
    (∀ (s₁ s₂ : Store) (l₁ l₂ : Ledger),
      (_get_statistics s₁ l₁).availableAM7 ≤ (_get_statistics s₂ l₂).availableAM7 →
      (_get_statistics s₂ l₂).availableAU8 = (_get_statistics s₁ l₁).availableAU8 →
      (_get_statistics s₁ l₁).availableAU8 < (_get_statistics s₁ l₁).availableAM7 →
      (get_inventory_summary s₂ l₂).pairsAvailable =
        (get_inventory_summary s₁ l₁).pairsAvailable) := by
  constructor
  · intro s ledger
    exact ⟨rfl, rfl⟩
  · intro s₁ s₂ l₁ l₂ hmono hsame hsmall
    show min (_get_statistics s₂ l₂).availableAM7 (_get_statistics s₂ l₂).availableAU8 =
      min (_get_statistics s₁ l₁).availableAM7 (_get_statistics s₁ l₁).availableAU8
    rw [hsame]
    rw [min_eq_right (le_of_lt hsmall),
        min_eq_right (le_of_lt (lt_of_lt_of_le hsmall hmono))]

/-- C4 witness: two good completed AM7 boards and one good completed AU8
board give `pairsAvailable = 1`; adding a third AM7 board leaves it 1. -/
theorem c4_pairs_available_min_witness :
    (_get_statistics c4S1 none).availableAM7 ≤ (_get_statistics c4S2 none).availableAM7 ∧
    (_get_statistics c4S2 none).availableAU8 = (_get_statistics c4S1 none).availableAU8 ∧
    (_get_statistics c4S1 none).availableAU8 < (_get_statistics c4S1 none).availableAM7 ∧
    (get_inventory_summary c4S2 none).pairsAvailable =
      (get_inventory_summary c4S1 none).pairsAvailable :=
  ⟨by decide, by decide, by decide,
   c4_pairs_available_min.2 c4S1 c4S2 none none (by decide) (by decide) (by decide)⟩

/-- C7: for every slip, the slip status computes the per-stage pair counts
as `min` over the two kinds of the defect-excluded counts restricted to
the slip, `wipPairs = agingPairs + coatingPairs`,
`remainingPairs = max(target − completedPairs, 0)`, and
`remainingPairsAfterWIP = max(target − min(target, completedPairs + wipPairs), 0)`. -/
theorem c7_slip_status_arithmetic (s : Store) (slip : String) :
    (_slip_status s slip).agingPairs =
      min (slipStageModelCount s slip .aging .AM7) (slipStageModelCount s slip .aging .AU8) ∧
    (_slip_status s slip).coatingPairs =
      min (slipStageModelCount s slip .coating .AM7) (slipStageModelCount s slip .coating .AU8) ∧
    (_slip_status s slip).completedPairs =
      min (slipStageModelCount s slip .completed .AM7) (slipStageModelCount s slip .completed .AU8) ∧
    (_slip_status s slip).wipPairs =
      (_slip_status s slip).agingPairs + (_slip_status s slip).coatingPairs ∧
    (_slip_status s slip).remainingPairs =
      max ((_slip_status s slip).targetPairs - ((_slip_status s slip).completedPairs : Int)) 0 ∧
    (_slip_status s slip).remainingPairsAfterWIP =
      max ((_slip_status s slip).targetPairs -
        min (_slip_status s slip).targetPairs
          (((_slip_status s slip).completedPairs : Int) + ((_slip_status s slip).wipPairs : Int))) 0 :=
  ⟨rfl, rfl, rfl, rfl, rfl, rfl⟩

/-- C1: the claimed idempotent no-op re-scan does not happen. For every
existing board, requesting the board's *current* stage is rejected:
`_validate_update_sequential` runs before the `old_stage == stage` no-op
branch and raises `InvalidTransition` (or "already Completed"), so the
no-op branch at line 425 of `pcba.py` is unreachable. -/
theorem c1_same_stage_rescan_is_rejected (s : Store) (serial u : String) (now : Nat)
    (b : Board) (hb : findBoard s serial = some b) :
    _update_board_stage_internal s serial b.stage u now =
      .error (if b.stage = .completed then .alreadyCompleted
              else .invalidOrder b.stage (next_stage_of b.stage)) := by
  have hseq : _validate_update_sequential s serial b.stage =
      .error (if b.stage = .completed then .alreadyCompleted
              else .invalidOrder b.stage (next_stage_of b.stage)) := by
    by_cases hc : b.stage = .completed
    · simp only [_validate_update_sequential, hb, if_pos hc]
    · simp only [_validate_update_sequential, hb]
      rw [if_neg hc, if_neg hc,
        if_pos (fun hcontra => next_stage_ne b.stage hcontra.symm)]
  simp only [_update_board_stage_internal, hb, hseq]

/-- C1 witness: a concrete board at `aging` re-scanned at `aging` returns
the 400 `InvalidTransition` error instead of the claimed no-op success. -/
theorem c1_same_stage_rescan_is_rejected_witness :
    findBoard c1S "SN1" = some c1B ∧
    _update_board_stage_internal c1S "SN1" .aging "op" 1700000000 =
      .error (.invalidOrder .aging (some .coating)) ∧
    Err.statusOf (.invalidOrder .aging (some .coating)) = 400 :=
  ⟨rfl, c1_same_stage_rescan_is_rejected c1S "SN1" "op" 1700000000 c1B rfl, rfl⟩

/-- C2 counterexample: a board at `aging` with an `aging` history event on
today's LA calendar day, re-scanned at `aging` today, is rejected with the
400 `InvalidTransition` error, not with the 409 `Conflict` the claim
states. -/
theorem c2_same_day_rescan_not_conflict :
    parse_to_la_date_key 1699999000 = today_la_key 1700000000 ∧
    _update_board_stage_internal c2S "SN1" .aging "op" 1700000000 =
      .error (.invalidOrder .aging (some .coating)) ∧
    Err.statusOf (.invalidOrder .aging (some .coating)) ≠ 409 := by
  refine ⟨by decide, ?_, by decide⟩
  rfl

/-- C2 (amended): for an existing, non-completed board, a stage-advance
request for the valid next stage is rejected with 409 `Conflict` whenever
one of the 5 most recent history events for the board at the requested
stage has a timestamp on the same LA calendar day as the call; re-scanning
at the *current* stage on the same day is instead rejected with
`InvalidTransition` (see the C2 counterexample). -/
theorem c2_same_day_next_stage_conflict (s : Store) (serial u : String) (st : Stage)
    (now : Nat) (b : Board)
    (hb : findBoard s serial = some b)
    (hc : b.stage ≠ .completed)
    (hst : some st = next_stage_of b.stage)
    (hdup : ∃ r ∈ (sortTsDesc (historyAtStage s b.id st)).take 5,
        parse_to_la_date_key r.timestamp = today_la_key now) :
    _update_board_stage_internal s serial st u now = .error (.duplicateToday st) ∧
    Err.statusOf (.duplicateToday st) = 409 := by
  refine ⟨?_, rfl⟩
  have hseq : _validate_update_sequential s serial st = .ok () :=
    (seq_ok_iff hb).mpr ⟨hc, hst⟩
  have hdupe := dup_err hdup
  simp only [_update_board_stage_internal, hb, hseq, hdupe]

/-- C2 witness: a board at `aging` scanned to `coating` while a `coating`
history event from the same LA day exists is rejected with 409. -/
theorem c2_same_day_next_stage_conflict_witness :
    findBoard c2wS "SN1" = some c1B ∧
    _update_board_stage_internal c2wS "SN1" .coating "op" 1700000000 =
      .error (.duplicateToday .coating) ∧
    Err.statusOf (.duplicateToday .coating) = 409 :=
  ⟨rfl,
   (c2_same_day_next_stage_conflict c2wS "SN1" "op" .coating 1700000000 c1B rfl
      (by decide) rfl (by decide)).1,
   rfl⟩

/-- C5: the atomicity claim fails at this input. The connection is in
autocommit mode and `admin_edit_board` executes its field `UPDATE` before
the `newSerialNumber` collision check, so an edit whose `newSerialNumber`
collides fails with the duplicate-serial error yet leaves the edited
board's batch, `last_update` and `operator` changed in the store. -/
theorem c5_admin_edit_collision_leaves_changes :
    (admin_edit_board c5S "SN1" c5Patch ⟨"boss", "admin"⟩ 1700000000).1 =
      .error (.serialExists "SN2") ∧
    (findBoard c5S "SN1").map (fun b => b.batch_number) = some "B1" ∧
    (findBoard (admin_edit_board c5S "SN1" c5Patch ⟨"boss", "admin"⟩ 1700000000).2 "SN1").map
      (fun b => b.batch_number) = some "B2x" ∧
    (findBoard (admin_edit_board c5S "SN1" c5Patch ⟨"boss", "admin"⟩ 1700000000).2 "SN1").map
      (fun b => b.operator) = some "boss" ∧
    (admin_edit_board c5S "SN1" c5Patch ⟨"boss", "admin"⟩ 1700000000).2 ≠ c5S :=
  ⟨rfl, rfl, rfl, rfl, by decide⟩

/-- C9 counterexample: `mark_ng` also overwrites the stored `operator`
with the caller's username, so "leaves every other field unchanged" fails:
a board whose operator is `"alice"`, marked NG by `"bob"`, ends with
operator `"bob"`. -/
theorem c9_mark_ng_changes_operator :
    (findBoard c9S "SN1").map (fun b => b.operator) = some "alice" ∧
    ((mark_ng c9S "SN1" ⟨true, none⟩ "bob" 1700000000).toOption.map
      (fun x => x.2.operator)) = some "bob" ∧
    ("bob" : String) ≠ "alice" :=
  ⟨rfl, rfl, by decide⟩

/-- C9 (amended): `mark_ng` changes only the NG flag, reason and time plus
`last_update` *and* `operator`; the stage, serial, batch, model, start
time and slip are unchanged, no history row is added or removed, the slips
table is untouched, and no other board is modified. -/
theorem c9_mark_ng_frame (s : Store) (serial u : String) (p : NGPatch) (now : Nat)
    (s' : Store) (b' : Board)
    (h : mark_ng s serial p u now = .ok (s', b')) :
    ∃ b, findBoard s serial = some b ∧
      b'.id = b.id ∧
      b'.serial_number = b.serial_number ∧
      b'.batch_number = b.batch_number ∧
      b'.model = b.model ∧
      b'.stage = b.stage ∧
      b'.start_time = b.start_time ∧
      b'.slip_number = b.slip_number ∧
      b'.last_update = now ∧
      b'.operator = u ∧
      s'.history = s.history ∧
      s'.slips = s.slips ∧
      s'.boards = s.boards.map (fun x => if x.serial_number = serial then b' else x) := by
  unfold mark_ng at h
  cases hfb : findBoard s serial with
  | none => rw [hfb] at h; cases h
  | some b =>
      rw [hfb] at h
      refine ⟨b, rfl, ?_⟩
      cases hng : p.ng <;> rw [hng] at h <;>
        simp only [] at h <;> cases h <;>
        exact ⟨rfl, rfl, rfl, rfl, rfl, rfl, rfl, rfl, rfl, rfl, rfl, rfl⟩

/-- C9 witness: the frame property at a concrete NG marking. -/
theorem c9_mark_ng_frame_witness :
    mark_ng c9wS "SN9" ⟨true, some "r"⟩ "bob" 5 = .ok (c9wS', c9wB') ∧
    findBoard c9wS "SN9" = some c9wB ∧
    c9wB'.stage = c9wB.stage ∧
    c9wB'.serial_number = c9wB.serial_number ∧
    c9wB'.batch_number = c9wB.batch_number ∧
    c9wB'.model = c9wB.model ∧
    c9wB'.start_time = c9wB.start_time ∧
    c9wB'.slip_number = c9wB.slip_number ∧
    c9wB'.last_update = 5 ∧
    c9wB'.operator = "bob" ∧
    c9wS'.history = c9wS.history ∧
    c9wS'.slips = c9wS.slips := by
  obtain ⟨b, hb, hid, hsn, hbn, hm, hst, hsta, hsl, hlu, hop, hh, hs, hbd⟩ :=
    c9_mark_ng_frame c9wS "SN9" "bob" ⟨true, some "r"⟩ 5 c9wS' c9wB' rfl
  have hbe : b = c9wB := by
    have h2 : some b = some c9wB := by rw [← hb]; rfl
    exact Option.some.inj h2
  subst hbe
  exact ⟨rfl, hb, hst, hsn, hbn, hm, hsta, hsl, hlu, hop, hh, hs⟩

theorem findBoard_after_ensure (s : Store) (payload : BoardCreate) (now : Nat)
    (hnf : findBoard s payload.serialNumber = none) :
    findBoard (match strTruthy payload.slipNumber with
      | some sn => _ensure_slip s sn (_effective_target_pairs_from_create payload) now
      | none => s) payload.serialNumber = none := by
  cases hsl : strTruthy payload.slipNumber with
  | none => simpa using hnf
  | some sn =>
      simp only []
      rw [findBoard_boards_eq (ensure_slip_boards s sn _ now)]
      exact hnf

/-- On an unknown serial, `scan_upsert` takes the create path (after the
implicit slip upsert, which does not touch the boards table). -/
theorem scan_upsert_unknown {s : Store} {payload : BoardCreate} {user : User} {now : Nat}
    (hne : payload.serialNumber ≠ "")
    (hnf : findBoard s payload.serialNumber = none) :
    scan_upsert s payload user now =
      _create_board_internal
        (match strTruthy payload.slipNumber with
         | some sn => _ensure_slip s sn (_effective_target_pairs_from_create payload) now
         | none => s) payload user.username now := by
  simp only [scan_upsert, if_neg hne, findBoard_after_ensure s payload now hnf]

/-- A successful create yields a board at the requested stage, which the
initial-stage validation forces to be `aging`. -/
theorem create_ok_stage {s : Store} {data : BoardCreate} {u : String} {now : Nat}
    {s' : Store} {b' : Board}
    (h : _create_board_internal s data u now = .ok (s', b')) :
    b'.stage = data.stage ∧ data.stage = .aging := by
  unfold _create_board_internal at h
  by_cases hex : (findBoard s data.serialNumber).isSome = true
  · rw [if_pos hex] at h; cases h
  · rw [if_neg hex] at h
    by_cases hag : data.stage = .aging
    · have hv : _validate_create_stage data.stage = .ok () := by
        unfold _validate_create_stage
        rw [if_neg (by simp [hag])]
      simp only [hv] at h
      split at h
      · simp at h
      · simp only [Except.ok.injEq, Prod.mk.injEq] at h
        obtain ⟨-, hb'⟩ := h
        subst hb'
        exact ⟨rfl, hag⟩
    · have hv : _validate_create_stage data.stage = .error .mustStartAging := by
        unfold _validate_create_stage
        rw [if_pos hag]
      simp only [hv] at h
      simp at h

/-- C6: through the public create and advance operations a board's stage
moves through `aging → coating → completed` one step at a time:
(1) creating an unknown serial at any stage other than `aging` fails with
the `InvalidTransition` "Must start with Aging" error; (2) an advance
whose requested stage is not the immediate successor of the non-completed
current stage fails with the `InvalidTransition` error carrying
both the current stage and the expected next stage; (3) every successful
advance moves the stage to exactly the immediate successor (index + 1);
(4) every successful create-or-advance of an unknown serial lands at
`aging`. -/
theorem c6_flow_one_step :
    (∀ (s : Store) (payload : BoardCreate) (user : User) (now : Nat),
      payload.serialNumber ≠ "" →
      findBoard s payload.serialNumber = none →
      payload.stage ≠ .aging →
      scan_upsert s payload user now = .error .mustStartAging) ∧
    (∀ (s : Store) (serial u : String) (st : Stage) (now : Nat) (b : Board),
      findBoard s serial = some b →
      b.stage ≠ .completed →
      some st ≠ next_stage_of b.stage →
      _update_board_stage_internal s serial st u now =
        .error (.invalidOrder b.stage (next_stage_of b.stage))) ∧
    (∀ (s : Store) (serial u : String) (st : Stage) (now : Nat) (s' : Store) (b' b : Board),
      findBoard s serial = some b →
      _update_board_stage_internal s serial st u now = .ok (s', b') →
      next_stage_of b.stage = some b'.stage ∧ b'.stage.idx = b.stage.idx + 1) ∧
    (∀ (s : Store) (payload : BoardCreate) (user : User) (now : Nat) (s' : Store) (b' : Board),
      findBoard s payload.serialNumber = none →
      scan_upsert s payload user now = .ok (s', b') →
      b'.stage = .aging) := by
  refine ⟨?_, ?_, ?_, ?_⟩
  · intro s payload user now hne hnf hstage
    rw [scan_upsert_unknown hne hnf]
    have hv : _validate_create_stage payload.stage = .error .mustStartAging := by
      unfold _validate_create_stage
      rw [if_pos hstage]
    simp [_create_board_internal, findBoard_after_ensure s payload now hnf, hv]
  · intro s serial u st now b hb hc hst
    have hseq := seq_err hb hc hst
    simp only [_update_board_stage_internal, hb, hseq]
  · intro s serial u st now s' b' b hb h
    simp only [_update_board_stage_internal, hb] at h
    cases hseq : _validate_update_sequential s serial st with
    | error e => simp only [hseq] at h; simp at h
    | ok uu =>
        cases uu
        simp only [hseq] at h
        obtain ⟨hnc, hnext⟩ := (seq_ok_iff hb).mp hseq
        cases hdup : _validate_no_duplicate_today s b.id st now with
        | error e => simp only [hdup] at h; simp at h
        | ok uu2 =>
            cases uu2
            simp only [hdup] at h
            by_cases hbs : b.stage = st
            · exfalso
              rw [← hbs] at hnext
              exact next_stage_ne b.stage hnext.symm
            · rw [if_neg hbs] at h
              simp only [Except.ok.injEq, Prod.mk.injEq] at h
              obtain ⟨-, hb'⟩ := h
              subst hb'
              exact ⟨hnext.symm, next_stage_idx hnext.symm⟩
  · intro s payload user now s' b' hnf h
    by_cases hne : payload.serialNumber = ""
    · unfold scan_upsert at h
      rw [if_pos hne] at h
      cases h
    · rw [scan_upsert_unknown hne hnf] at h
      exact (create_ok_stage h).1.trans (create_ok_stage h).2

/-- C6 witness: creating an unknown serial at `coating` fails; a skip
request `aging → completed` fails naming current and expected stages; a
concrete successful advance moves `aging → coating` (index 0 → 1); a
concrete successful create lands at `aging`. -/
theorem c6_flow_one_step_witness :
    scan_upsert c6S { serialNumber := "NEW2", stage := .coating } ⟨"u", "user"⟩ 5 =
      .error .mustStartAging ∧
    _update_board_stage_internal c6S "SN6" .completed "op" 5 =
      .error (.invalidOrder .aging (some .coating)) ∧
    (next_stage_of c6B.stage = some c6B'.stage ∧ c6B'.stage.idx = c6B.stage.idx + 1) ∧
    c6w4B.stage = .aging :=
  ⟨c6_flow_one_step.1 c6S { serialNumber := "NEW2", stage := .coating } ⟨"u", "user"⟩ 5
      (by decide) rfl (by decide),
   c6_flow_one_step.2.1 c6S "SN6" "op" .completed 5 c6B rfl (by decide) (by decide),
   c6_flow_one_step.2.2.1 c6S "SN6" "op" .coating 5 c6S' c6B' c6B rfl (by decide),
   c6_flow_one_step.2.2.2 emptyStore c6P4 ⟨"u", "user"⟩ 5 c6w4S c6w4B rfl (by decide)⟩

theorem seq_error_status {s : Store} {serial : String} {st : Stage} {e : Err}
    (h : _validate_update_sequential s serial st = .error e) : e.statusOf = 400 := by
  unfold _validate_update_sequential at h
  cases hfb : findBoard s serial with
  | none => simp only [hfb] at h; cases h
  | some b =>
      simp only [hfb] at h
      split_ifs at h with h1 h2 <;> (cases h; try rfl)

/-- C10: the same-day duplicate guard inspects only the 5 most recent
history events at the requested stage. If none of those 5 falls on today's
LA day, the advance is never rejected with the 409 `Conflict`, even when
an older (beyond-the-window) event does fall on today's LA day and the
history holds more than 5 events at that stage. -/
theorem c10_dup_guard_window_limit (s : Store) (serial u : String) (st : Stage)
    (now : Nat) (b : Board)
    (hb : findBoard s serial = some b)
    (hlen : 5 < (historyAtStage s b.id st).length)
    (h5 : ∀ r ∈ (sortTsDesc (historyAtStage s b.id st)).take 5,
        parse_to_la_date_key r.timestamp ≠ today_la_key now)
    (hex : ∃ r ∈ (sortTsDesc (historyAtStage s b.id st)).drop 5,
        parse_to_la_date_key r.timestamp = today_la_key now) :
    errStatus (_update_board_stage_internal s serial st u now) ≠ some 409 := by
  have hdup : _validate_no_duplicate_today s b.id st now = .ok () :=
    (dup_ok_iff s b.id st now).mpr h5
  simp only [_update_board_stage_internal, hb]
  cases hseq : _validate_update_sequential s serial st with
  | error e =>
      simp only [errStatus, Option.some.injEq]
      rw [seq_error_status hseq]
      decide
  | ok uu =>
      cases uu
      simp only [hdup]
      by_cases hbs : b.stage = st
      · simp [hbs, errStatus]
      · simp [hbs, errStatus]

/-- C10 witness: six `coating` events, the five most recent on a later LA
day and the sixth (outside the window) on today's LA day; the advance to
`coating` is not rejected with 409. -/
theorem c10_dup_guard_window_limit_witness :
    5 < (historyAtStage c10S "B1" .coating).length ∧
    parse_to_la_date_key 1699999000 = today_la_key 1700000000 ∧
    errStatus (_update_board_stage_internal c10S "SN1" .coating "op" 1700000000) ≠ some 409 :=
  ⟨by decide, by decide,
   c10_dup_guard_window_limit c10S "SN1" "op" .coating 1700000000 c1B rfl
     (by decide) (by decide) (by decide)⟩

theorem backup_quarantine (fs : FileSys) (f : DiskFile) (ts tag : String)
    (hm : fs.main = some f) :
    (quarantinePath ts tag "", some f) ∈ (_backup_and_recreate fs ts tag).2.quarantine ∧
    (fs.walExists = true →
      (quarantinePath ts tag "-wal", none) ∈ (_backup_and_recreate fs ts tag).2.quarantine) ∧
    (fs.shmExists = true →
      (quarantinePath ts tag "-shm", none) ∈ (_backup_and_recreate fs ts tag).2.quarantine) := by
  unfold _backup_and_recreate
  simp only [hm]
  refine ⟨by simp [List.mem_append], ?_, ?_⟩
  · intro hw; simp [hw, List.mem_append]
  · intro hs; simp [hs, List.mem_append]

theorem open_conn_repair (fs : FileSys) (f : DiskFile) (ts : String)
    (hm : fs.main = some f)
    (hbad : f.openRaises = true ∨ f.executeRaises = true ∨ f.integrityOk = false) :
    open_conn fs true ts = (.ok emptyStore, (_backup_and_recreate fs ts (repairTag f)).2) := by
  simp only [open_conn, hm]
  by_cases ho : f.openRaises = true
  · simp [ho, repairTag, _backup_and_recreate]
  · by_cases he2 : f.executeRaises = true
    · simp [ho, he2, repairTag, _backup_and_recreate]
    · have hint : f.integrityOk = false := by
        rcases hbad with h | h | h
        · exact absurd h ho
        · exact absurd h he2
        · exact h
      simp [ho, he2, hint, repairTag, _backup_and_recreate]

theorem open_conn_no_repair (fs : FileSys) (f : DiskFile) (ts : String)
    (hm : fs.main = some f)
    (hbad : f.openRaises = true ∨ f.executeRaises = true ∨ f.integrityOk = false) :
    open_conn fs false ts = (.error .corrupt, fs) := by
  simp only [open_conn, hm]
  by_cases ho : f.openRaises = true
  · simp [ho]
  · by_cases he2 : f.executeRaises = true
    · simp [ho, he2]
    · have hint : f.integrityOk = false := by
        rcases hbad with h | h | h
        · exact absurd h ho
        · exact absurd h he2
        · exact h
      simp [ho, he2, hint]

/-- C8: opening a store whose main file is structurally broken (the open
raises, executing on it raises, or the integrity check fails): with
auto-repair enabled `open()` succeeds with an empty fresh store, the main
path holds a fresh empty-schema file, and the corrupt file (with its
existing `-wal`/`-shm` side files) is renamed to the timestamped
quarantine path; with auto-repair disabled `open()` fails with
`StoreCorrupt` and the filesystem is untouched. -/
theorem c8_open_conn_self_heal (fs : FileSys) (f : DiskFile) (ts : String)
    (hm : fs.main = some f)
    (hbad : f.openRaises = true ∨ f.executeRaises = true ∨ f.integrityOk = false) :
    ((open_conn fs true ts).1 = .ok emptyStore ∧
     (open_conn fs true ts).2.main = some emptyDiskFile ∧
     (quarantinePath ts (repairTag f) "", some f) ∈ (open_conn fs true ts).2.quarantine ∧
     (fs.walExists = true →
       (quarantinePath ts (repairTag f) "-wal", none) ∈ (open_conn fs true ts).2.quarantine) ∧
     (fs.shmExists = true →
       (quarantinePath ts (repairTag f) "-shm", none) ∈ (open_conn fs true ts).2.quarantine)) ∧
    ((open_conn fs false ts).1 = .error .corrupt ∧ (open_conn fs false ts).2 = fs) := by
  have hrep := open_conn_repair fs f ts hm hbad
  have hq := backup_quarantine fs f ts (repairTag f) hm
  refine ⟨⟨?_, ?_, ?_, ?_, ?_⟩, ?_, ?_⟩
  · rw [hrep]
  · rw [hrep]; rfl
  · rw [hrep]; exact hq.1
  · intro hw; rw [hrep]; exact hq.2.1 hw
  · intro hs; rw [hrep]; exact hq.2.2 hs
  · rw [open_conn_no_repair fs f ts hm hbad]
  · rw [open_conn_no_repair fs f ts hm hbad]

/-- C8 witness: a concrete store file failing its integrity check, with an
existing `-wal` side file. -/
theorem c8_open_conn_self_heal_witness :
    (open_conn c8FS true "T1").1 = .ok emptyStore ∧
    (open_conn c8FS true "T1").2.main = some emptyDiskFile ∧
    (quarantinePath "T1" "integrity_check" "", some c8F) ∈ (open_conn c8FS true "T1").2.quarantine ∧
    (quarantinePath "T1" "integrity_check" "-wal", none) ∈ (open_conn c8FS true "T1").2.quarantine ∧
    (open_conn c8FS false "T1").1 = .error .corrupt ∧
    (open_conn c8FS false "T1").2 = c8FS := by
  have h := c8_open_conn_self_heal c8FS c8F "T1" rfl (Or.inr (Or.inr rfl))
  have htag : repairTag c8F = "integrity_check" := rfl
  refine ⟨h.1.1, h.1.2.1, ?_, ?_, h.2.1, h.2.2⟩
  · have := h.1.2.2.1; rwa [htag] at this
  · have := h.1.2.2.2.1 rfl; rwa [htag] at this

end Pcba
